import Mathlib

/-!
# Shallow embedding of the sa-pharma-mcp cache layer

This file embeds the freshness-tracking cache layer of the repository:

* `NdohUtils` models `ndoh_utils.py`: the versioned-snapshot cache
  `get_latest_ndoh_prod_list_df` together with its link discovery
  `discover_latest_ndoh_prod_list_link` and the normalization step
  (column projection + `dropna` on the `Description` column).
* `SahpraUtils` models `sahpra_utils.py`: the 12-hour in-memory nonce cache
  `get_sahpra_nonce`.
* `Server` models the `get_licensed_companies` tool of `server.py`.

Effectful collaborators (HTTP gets, `re.search`, `urljoin`, `pandas`
reading/rendering) are passed in as environment records whose fields return
`Except`/`Option` results; the file system (the link-tracker file and the
snapshot CSV) and the in-memory nonce slot are explicit state records.
Outputs carry, besides the returned value and the final state, the number of
dataset fetches attempted and the ordered list of file writes performed, so
that fetch-count and write-ordering properties can be stated.

Cells of the tabular data are `Option String`, `none` standing for a missing
cell (pandas `NaN`); a raw row is its list of cells, assumed to cover the
projected column indices (an absent index reads as a missing cell).
-/

/-- Error kinds raised by the Python code: network/transport failures
(`httpx` errors, `raise_for_status`), payload parse failures
(`pandas.read_excel` / `response.json()`), the `ValueError` raised by
`discover_latest_ndoh_prod_list_link` when no link matches, and the
`ValueError("Nonce not found.")` raised by `get_sahpra_nonce`. -/
inductive SrcError where
  | fetchError : SrcError
  | parseError : SrcError
  | linkNotFound : SrcError
  | nonceNotFound : SrcError
  deriving DecidableEq, Repr

namespace NdohUtils

/-- A cell of the tabular data; `none` is a missing cell (pandas `NaN`). -/
abbrev Cell := Option String

/-- A raw row of the parsed Excel sheet, as its list of cells. -/
abbrev RawRow := List Cell

/-- A normalized row: the 13 projected cells in schema order. -/
abbrev NRow := List Cell

/-- The durable state of the versioned-snapshot cache:
`linkTracker` is the contents of `data/latest_link.txt` if that file exists,
`cacheFile` the rows stored in `data/ndoh_mhpl_cache.csv` if it exists. -/
structure VscState where
  linkTracker : Option String
  cacheFile : Option (List NRow)
  deriving DecidableEq, Repr

/-- The effectful collaborators of `ndoh_utils.py`:
`listingPage` is the GET of the tenders page (after `raise_for_status`);
`findLink` is `re.search` for the MHPL href pattern, returning group 1;
`joinUrl` is `urljoin` with the tenders URL;
`fetchData` is the GET of the dataset link (after `raise_for_status`);
`parseExcel` is `pandas.read_excel(io.BytesIO(...), header=3)`. -/
structure VscEnv where
  listingPage : Except SrcError String
  findLink : String → Option String
  joinUrl : String → String
  fetchData : String → Except SrcError String
  parseExcel : String → Except SrcError (List RawRow)

/-- A file write performed by the cache: `df.to_csv(CACHE_FILE)` or the
write of `current_link` to `LINK_TRACKER`. -/
inductive WriteEv where
  | writeSnapshot : List NRow → WriteEv
  | writeToken : String → WriteEv
  deriving DecidableEq, Repr

/-- Outcome of one `get_latest_ndoh_prod_list_df` call: the returned dataframe
or propagated error, the final durable state, the number of dataset fetches
attempted, and the ordered list of file writes performed. -/
structure VscOut where
  result : Except SrcError (List NRow)
  state : VscState
  fetches : Nat
  writes : List WriteEv
  deriving Repr

/-- Embeds `discover_latest_ndoh_prod_list_link`: GET the tenders page,
search it for the MHPL href pattern; on a match return `urljoin` of the
relative path, otherwise raise `ValueError` (here `SrcError.linkNotFound`). -/
def discover_latest_ndoh_prod_list_link (env : VscEnv) : Except SrcError String :=
  match env.listingPage with
  | .error e => .error e
  | .ok text =>
    match env.findLink text with
    | some rel => .ok (env.joinUrl rel)
    | none => .error .linkNotFound

/-- The column projection `target_columns = [0, 2, 3, 9, 11, 13, 14, 15, 17, 19, 20, 29, 31]`. -/
def target_columns : List Nat := [0, 2, 3, 9, 11, 13, 14, 15, 17, 19, 20, 29, 31]

/-- The canonical schema the projected columns are renamed to. -/
def df_columns : List String :=
  ["Contract", "NSN", "Description", "INN", "Supplier",
   "Unit_Price", "Lead_Time_Days", "EML_Status", "ATC_Code",
   "Care_Level", "Quantity_Awarded", "MOQ", "Contract_Expiry"]

/-- Position of the required column `Description` in the canonical schema. -/
def descIdx : Nat := df_columns.findIdx (fun c => c == "Description")

/-- Embeds `raw_df.iloc[:, target_columns]` on one row: keep the cells at the
projected indices, in order. -/
def project (r : RawRow) : NRow := target_columns.map (fun i => r.getD i none)

/-- Embeds the normalization step of `get_latest_ndoh_prod_list_df`:
project the target columns and then `df.dropna(subset=["Description"])`,
dropping every row whose `Description` cell is missing. -/
def normalize_mhpl (raw : List RawRow) : List NRow :=
  (raw.map project).filter (fun r => (r.getD descIdx none).isSome)

/-- Embeds Python `str.strip()` (with no argument): remove leading and
trailing whitespace, computed on the string's character list. -/
def pyStrip (s : String) : String :=
  String.mk (((s.data.dropWhile Char.isWhitespace).reverse.dropWhile
    Char.isWhitespace).reverse)

/-- Embeds reading the persisted token: `file.read().strip()` when
`LINK_TRACKER` exists, the empty string otherwise. -/
def readLastLink (s : VscState) : String :=
  match s.linkTracker with
  | some content => pyStrip content
  | none => ""

/-- Embeds the `except` block of `get_latest_ndoh_prod_list_df`: if the
snapshot CSV exists return its rows (stale fallback), otherwise re-raise the
original error. No file is written in either case. -/
def fallback (e : SrcError) (s : VscState) (fetches : Nat) : VscOut :=
  match s.cacheFile with
  | some rows => ⟨.ok rows, s, fetches, []⟩
  | none => ⟨.error e, s, fetches, []⟩

/-- Embeds the refresh path of `get_latest_ndoh_prod_list_df`: GET the
dataset at `current_link`, parse it, normalize it, then write the snapshot
CSV first and the link-tracker file second. Fetch or parse failures are
routed to the `except` block (`fallback`). -/
def refresh (env : VscEnv) (s : VscState) (current_link : String) : VscOut :=
  match env.fetchData current_link with
  | .error e => fallback e s 1
  | .ok raw_bytes =>
    match env.parseExcel raw_bytes with
    | .error e => fallback e s 1
    | .ok raw_df =>
      let df := normalize_mhpl raw_df
      ⟨.ok df, ⟨some current_link, some df⟩, 1,
        [.writeSnapshot df, .writeToken current_link]⟩

/-- Embeds `get_latest_ndoh_prod_list_df`: discover the current link; if it
equals the stripped persisted token and the snapshot CSV exists, return the
persisted rows with no dataset fetch; otherwise refresh. A discovery failure
goes to the `except` block (`fallback`) without any dataset fetch. -/
def get_latest_ndoh_prod_list_df (env : VscEnv) (s : VscState) : VscOut :=
  match discover_latest_ndoh_prod_list_link env with
  | .error e => fallback e s 0
  | .ok current_link =>
    match s.cacheFile with
    | some rows =>
      if readLastLink s = current_link then ⟨.ok rows, s, 0, []⟩
      else refresh env s current_link
    | none => refresh env s current_link

/-- Effect of a single file write on the durable state. -/
def applyWrite (s : VscState) : WriteEv → VscState
  | .writeSnapshot rows => { s with cacheFile := some rows }
  | .writeToken t => { s with linkTracker := some t }

/-- Effect of a sequence of file writes, in order; applying a strict prefix
models a run interrupted between writes. -/
def applyWrites (s : VscState) (ws : List WriteEv) : VscState :=
  ws.foldl applyWrite s

end NdohUtils

namespace SahpraUtils

/-- The nonce TTL: `CACHE_LIFETIME = 43200` seconds (12 hours). -/
def CACHE_LIFETIME : Int := 43200

/-- The in-memory slot `_nonce_cache = {"value": None, "timestamp": 0}`. -/
structure NonceState where
  value : Option String
  timestamp : Int
  deriving DecidableEq, Repr

/-- The effectful collaborators of `get_sahpra_nonce`: `page` is the GET of
the approved-licences page (after `raise_for_status`), `findNonce` is
`re.search` for the `ninja_table_public_nonce` pattern, returning group 1. -/
structure NonceEnv where
  page : Except SrcError String
  findNonce : String → Option String

/-- Outcome of one `get_sahpra_nonce` call: the returned nonce or propagated
error, the final cache slot, and whether a network fetch was attempted. -/
structure NonceOut where
  result : Except SrcError String
  cache : NonceState
  fetched : Bool
  deriving Repr

/-- The refresh path of `get_sahpra_nonce`: GET the page; search it for the
nonce pattern; raise `ValueError("Nonce not found.")` on no match; on a match
store the nonce with the current timestamp and return it. -/
def fetch_nonce (env : NonceEnv) (c : NonceState) (now : Int) : NonceOut :=
  match env.page with
  | .error e => ⟨.error e, c, true⟩
  | .ok text =>
    match env.findNonce text with
    | none => ⟨.error .nonceNotFound, c, true⟩
    | some n => ⟨.ok n, ⟨some n, now⟩, true⟩

/-- Python truthiness of the cached value slot: `None` and the empty string
are falsy, any other string is truthy. -/
def truthy : Option String → Bool
  | none => false
  | some v => v != ""

/-- Embeds `get_sahpra_nonce`: if the cached value is truthy and
`now - timestamp < CACHE_LIFETIME`, return it without any network call;
otherwise refresh. -/
def get_sahpra_nonce (env : NonceEnv) (c : NonceState) (now : Int) : NonceOut :=
  if truthy c.value ∧ now - c.timestamp < CACHE_LIFETIME then
    ⟨.ok (c.value.getD ""), c, false⟩
  else fetch_nonce env c now

end SahpraUtils

namespace Server

/-- The category-to-table-id map of `get_licensed_companies`. -/
def TABLE_MAP : List (String × String) :=
  [("API Manufacturers", "6964"),
   ("Bond Stores", "6972"),
   ("Cannabis Cultivation Licences", "6591"),
   ("Distribution of Scheduled Substances", "6868"),
   ("Gas Manufacturers", "9444"),
   ("Holders of Certificate of Product Registration", "7144"),
   ("Manufacturers & Packers", "6968"),
   ("Private Only Wholesalers", "6974"),
   ("Provincial Depots", "6970"),
   ("Testing Laboratories", "7872")]

/-- Embeds `TABLE_MAP.get(category)`: the table id for the category, `none`
when the key is absent. -/
def tableMapGet (category : String) : Option String :=
  (TABLE_MAP.find? (fun p => p.fst == category)).map Prod.snd

/-- A record returned by the ninja-tables AJAX endpoint (field name/value
pairs); its exact shape is irrelevant to the tool's control flow. -/
abbrev DataRow := List (String × String)

/-- The effectful collaborators of `get_licensed_companies`: the nonce
environment it hands to `get_sahpra_nonce`, `fetchTable` the AJAX GET (with
table id and nonce) including `raise_for_status` and `response.json()`, and
`render` abstracting `pandas.DataFrame(...).head(50).to_markdown(index=False)`. -/
structure CompaniesEnv where
  nonceEnv : SahpraUtils.NonceEnv
  fetchTable : String → String → Except SrcError (List DataRow)
  render : List DataRow → String

/-- The `str(e)` text of an error, as interpolated into the failure
messages (abstracted to one fixed text per error kind). -/
def errStr : SrcError → String
  | .fetchError => "network error"
  | .parseError => "parse error"
  | .linkNotFound => "Could not find the Master Health Product List link."
  | .nonceNotFound => "Nonce not found."

/-- Outcome of one `get_licensed_companies` call: the returned string, the
final nonce cache slot, the number of network requests performed, and
whether the nonce cache slot was consulted at all. -/
structure ToolOut where
  output : String
  cache : SahpraUtils.NonceState
  httpCalls : Nat
  nonceTouched : Bool
  deriving Repr

/-- Embeds the `get_licensed_companies` tool: resolve the category in
`TABLE_MAP` (Python truthiness: a missing key, like an empty table id, takes
the error branch); on an unknown category return the fixed error message
without touching the network or the nonce cache; otherwise get the nonce,
GET the table data, and render it, mapping any raised error to the
`Failed to retrieve companies:` message. -/
def get_licensed_companies (env : CompaniesEnv) (c : SahpraUtils.NonceState)
    (now : Int) (category : String) : ToolOut :=
  match (tableMapGet category).getD "" with
  | "" => ⟨"Error: The category `" ++ category ++ "` was not found.", c, 0, false⟩
  | table_id =>
    let n := SahpraUtils.get_sahpra_nonce env.nonceEnv c now
    let k := if n.fetched then 1 else 0
    match n.result with
    | .error e =>
      ⟨"Failed to retrieve companies: " ++ errStr e, n.cache, k, true⟩
    | .ok nonce =>
      match env.fetchTable table_id nonce with
      | .error e =>
        ⟨"Failed to retrieve companies: " ++ errStr e, n.cache, k + 1, true⟩
      | .ok [] => ⟨"No records for `" ++ category ++ "`", n.cache, k + 1, true⟩
      | .ok rows => ⟨env.render rows, n.cache, k + 1, true⟩

end Server

/-! ## Concrete test fixtures -/

/-- An environment whose discovery succeeds with link `MHPL.xlsx` and whose
dataset fetch always fails. -/
def envFresh : NdohUtils.VscEnv :=
  { listingPage := .ok "page"
    findLink := fun _ => some "MHPL.xlsx"
    joinUrl := fun rel => rel
    fetchData := fun _ => .error .fetchError
    parseExcel := fun _ => .error .parseError }

/-- A durable state whose persisted token matches `envFresh`'s discovered
link and which holds a one-row snapshot. -/
def sFresh : NdohUtils.VscState := ⟨some "MHPL.xlsx", some [[some "d"]]⟩

/-- A 32-cell raw row with every cell present. -/
def fullRow : NdohUtils.RawRow := List.replicate 32 (some "x")

/-- An environment whose discovery yields link `L2` and whose fetch and
parse succeed, producing the single raw row `fullRow`. -/
def envRefresh : NdohUtils.VscEnv :=
  { listingPage := .ok "page"
    findLink := fun _ => some "rel"
    joinUrl := fun _ => "L2"
    fetchData := fun _ => .ok "bytes"
    parseExcel := fun _ => .ok [fullRow] }

/-- A durable state persisting the outdated token `L1` and an empty
snapshot, distinct from anything `envRefresh` produces. -/
def sOld : NdohUtils.VscState := ⟨some "L1", some []⟩

/-- A nonce environment whose page fetch succeeds and whose nonce pattern
matches `abcd`. -/
def envNonceOk : SahpraUtils.NonceEnv :=
  { page := .ok "text"
    findNonce := fun _ => some "abcd" }

/-- A nonce environment whose page fetch succeeds but whose nonce pattern
finds no match. -/
def envNonceMiss : SahpraUtils.NonceEnv :=
  { page := .ok "text"
    findNonce := fun _ => none }

/-- An environment whose listing page fetch succeeds but whose version-link
pattern finds no match. -/
def envNoLink : NdohUtils.VscEnv :=
  { listingPage := .ok "page"
    findLink := fun _ => none
    joinUrl := fun rel => rel
    fetchData := fun _ => .error .fetchError
    parseExcel := fun _ => .error .parseError }

/-- A tool environment for `get_licensed_companies` built over `envNonceOk`,
whose table fetch returns no records. -/
def envCompanies : Server.CompaniesEnv :=
  { nonceEnv := envNonceOk
    fetchTable := fun _ _ => .ok []
    render := fun _ => "table" }

/-! ## Claim theorems -/

/-- Helper: both branches of the nonce refresh path attempt a network
fetch. -/
theorem fetch_nonce_fetched (env : SahpraUtils.NonceEnv)
    (c : SahpraUtils.NonceState) (now : Int) :
    (SahpraUtils.fetch_nonce env c now).fetched = true := by
  unfold SahpraUtils.fetch_nonce
  split
  · rfl
  · split <;> rfl

/-- C1: when discovery returns the same token as the persisted link-tracker
file and a persisted snapshot exists, `get_latest_ndoh_prod_list_df` returns
the persisted snapshot unchanged, with zero dataset fetches and no file
writes; consequently a second call on the resulting state with the same
discovered token again performs zero dataset fetches. -/
theorem vsc_fresh_hit (env : NdohUtils.VscEnv) (s : NdohUtils.VscState)
    (t : String) (rows : List NdohUtils.NRow)
    (hd : NdohUtils.discover_latest_ndoh_prod_list_link env = .ok t)
    (hl : NdohUtils.readLastLink s = t)
    (hc : s.cacheFile = some rows) :
    NdohUtils.get_latest_ndoh_prod_list_df env s = ⟨.ok rows, s, 0, []⟩ ∧
    (NdohUtils.get_latest_ndoh_prod_list_df env
      (NdohUtils.get_latest_ndoh_prod_list_df env s).state).fetches = 0 := by
  have h1 : NdohUtils.get_latest_ndoh_prod_list_df env s = ⟨.ok rows, s, 0, []⟩ := by
    unfold NdohUtils.get_latest_ndoh_prod_list_df
    rw [hd, hc]
    simp [hl]
  refine ⟨h1, ?_⟩
  rw [h1]
  show (NdohUtils.get_latest_ndoh_prod_list_df env s).fetches = 0
  rw [h1]

/-- C1 witness: the fresh-hit theorem applied at a concrete environment and
state whose token matches, with a one-row snapshot. -/
theorem vsc_fresh_hit_witness :
    NdohUtils.get_latest_ndoh_prod_list_df envFresh sFresh =
      ⟨.ok [[some "d"]], sFresh, 0, []⟩ ∧
    (NdohUtils.get_latest_ndoh_prod_list_df envFresh
      (NdohUtils.get_latest_ndoh_prod_list_df envFresh sFresh).state).fetches = 0 :=
  vsc_fresh_hit envFresh sFresh "MHPL.xlsx" [[some "d"]] rfl (by decide) rfl

/-- C2: when discovery, the dataset fetch, or the Excel parse fails while a
persisted snapshot exists, `get_latest_ndoh_prod_list_df` returns exactly the
persisted snapshot, leaves the durable state untouched, and performs no file
write. -/
theorem vsc_stale_fallback (env : NdohUtils.VscEnv) (s : NdohUtils.VscState)
    (rows : List NdohUtils.NRow) (e : SrcError)
    (hc : s.cacheFile = some rows)
    (hfail :
      NdohUtils.discover_latest_ndoh_prod_list_link env = .error e ∨
      (∃ t, NdohUtils.discover_latest_ndoh_prod_list_link env = .ok t ∧
        NdohUtils.readLastLink s ≠ t ∧ env.fetchData t = .error e) ∨
      (∃ t b, NdohUtils.discover_latest_ndoh_prod_list_link env = .ok t ∧
        NdohUtils.readLastLink s ≠ t ∧ env.fetchData t = .ok b ∧
        env.parseExcel b = .error e)) :
    (NdohUtils.get_latest_ndoh_prod_list_df env s).result = .ok rows ∧
    (NdohUtils.get_latest_ndoh_prod_list_df env s).state = s ∧
    (NdohUtils.get_latest_ndoh_prod_list_df env s).writes = [] := by
  unfold NdohUtils.get_latest_ndoh_prod_list_df
  rcases hfail with hd | ⟨t, hd, hne, hf⟩ | ⟨t, b, hd, hne, hf, hp⟩
  · rw [hd]
    simp [NdohUtils.fallback, hc]
  · rw [hd, hc]
    simp [hne, NdohUtils.refresh, hf, NdohUtils.fallback, hc]
  · rw [hd, hc]
    simp [hne, NdohUtils.refresh, hf, hp, NdohUtils.fallback, hc]

/-- C2 witness: the stale-fallback theorem applied at a concrete state with
a mismatched token and an environment whose dataset fetch fails. -/
theorem vsc_stale_fallback_witness :
    (NdohUtils.get_latest_ndoh_prod_list_df envFresh
      ⟨some "L1", some [[some "d"]]⟩).result = .ok [[some "d"]] ∧
    (NdohUtils.get_latest_ndoh_prod_list_df envFresh
      ⟨some "L1", some [[some "d"]]⟩).state = ⟨some "L1", some [[some "d"]]⟩ ∧
    (NdohUtils.get_latest_ndoh_prod_list_df envFresh
      ⟨some "L1", some [[some "d"]]⟩).writes = [] :=
  vsc_stale_fallback envFresh ⟨some "L1", some [[some "d"]]⟩ [[some "d"]]
    .fetchError rfl
    (Or.inr (Or.inl ⟨"MHPL.xlsx", rfl, by decide, rfl⟩))

/-- C3: when discovery, the dataset fetch, or the Excel parse fails and no
persisted snapshot exists, `get_latest_ndoh_prod_list_df` propagates the
original error unmodified, leaves the durable state untouched, and performs
no file write. -/
theorem vsc_hard_failure (env : NdohUtils.VscEnv) (s : NdohUtils.VscState)
    (e : SrcError)
    (hc : s.cacheFile = none)
    (hfail :
      NdohUtils.discover_latest_ndoh_prod_list_link env = .error e ∨
      (∃ t, NdohUtils.discover_latest_ndoh_prod_list_link env = .ok t ∧
        env.fetchData t = .error e) ∨
      (∃ t b, NdohUtils.discover_latest_ndoh_prod_list_link env = .ok t ∧
        env.fetchData t = .ok b ∧ env.parseExcel b = .error e)) :
    (NdohUtils.get_latest_ndoh_prod_list_df env s).result = .error e ∧
    (NdohUtils.get_latest_ndoh_prod_list_df env s).state = s ∧
    (NdohUtils.get_latest_ndoh_prod_list_df env s).writes = [] := by
  unfold NdohUtils.get_latest_ndoh_prod_list_df
  rcases hfail with hd | ⟨t, hd, hf⟩ | ⟨t, b, hd, hf, hp⟩
  · rw [hd]
    simp [NdohUtils.fallback, hc]
  · rw [hd, hc]
    simp [NdohUtils.refresh, hf, NdohUtils.fallback, hc]
  · rw [hd, hc]
    simp [NdohUtils.refresh, hf, hp, NdohUtils.fallback, hc]

/-- C3 witness: the hard-failure theorem applied at the empty durable state
and an environment whose dataset fetch fails. -/
theorem vsc_hard_failure_witness :
    (NdohUtils.get_latest_ndoh_prod_list_df envFresh ⟨none, none⟩).result =
      .error .fetchError ∧
    (NdohUtils.get_latest_ndoh_prod_list_df envFresh ⟨none, none⟩).state =
      ⟨none, none⟩ ∧
    (NdohUtils.get_latest_ndoh_prod_list_df envFresh ⟨none, none⟩).writes = [] :=
  vsc_hard_failure envFresh ⟨none, none⟩ .fetchError rfl
    (Or.inr (Or.inl ⟨"MHPL.xlsx", rfl, rfl⟩))


/-- Helper: with a truthy cached value, the cache-validity guard of
`get_sahpra_nonce` holds exactly when the elapsed time is below the TTL. -/
theorem truthy_of_some_ne (v : String) (hne : v ≠ "") :
    SahpraUtils.truthy (some v) = true := by
  simp [SahpraUtils.truthy, hne]

/-- C4: with a truthy cached nonce issued at `timestamp`, a call at `now`
returns the cached value, leaves the slot untouched, and performs no fetch
exactly when `now - timestamp < CACHE_LIFETIME` (43200 s); when
`now - timestamp` is 43200 or greater, the call attempts a fresh fetch. -/
theorem twvc_ttl_boundary (env : SahpraUtils.NonceEnv)
    (c : SahpraUtils.NonceState) (now : Int) (v : String)
    (hv : c.value = some v) (hne : v ≠ "") :
    (now - c.timestamp < SahpraUtils.CACHE_LIFETIME →
      SahpraUtils.get_sahpra_nonce env c now = ⟨.ok v, c, false⟩) ∧
    (SahpraUtils.CACHE_LIFETIME ≤ now - c.timestamp →
      (SahpraUtils.get_sahpra_nonce env c now).fetched = true) := by
  constructor
  · intro hlt
    unfold SahpraUtils.get_sahpra_nonce
    rw [if_pos ⟨by rw [hv]; exact truthy_of_some_ne v hne, hlt⟩, hv,
      Option.getD_some]
  · intro hge
    unfold SahpraUtils.get_sahpra_nonce
    rw [if_neg (by rintro ⟨-, hlt⟩; exact absurd hge (not_le.mpr hlt))]
    exact fetch_nonce_fetched env c now

/-- C4 witness: a nonce issued at t = 0 is served from the cache with no
fetch at t = 43199 and triggers a fetch at t = 43200. -/
theorem twvc_ttl_boundary_witness :
    SahpraUtils.get_sahpra_nonce envNonceOk ⟨some "aaaa", 0⟩ 43199 =
      ⟨.ok "aaaa", ⟨some "aaaa", 0⟩, false⟩ ∧
    (SahpraUtils.get_sahpra_nonce envNonceOk ⟨some "aaaa", 0⟩ 43200).fetched =
      true :=
  ⟨(twvc_ttl_boundary envNonceOk ⟨some "aaaa", 0⟩ 43199 "aaaa" rfl
      (by decide)).1 (by decide),
   (twvc_ttl_boundary envNonceOk ⟨some "aaaa", 0⟩ 43200 "aaaa" rfl
      (by decide)).2 (by decide)⟩

/-- Helper: when the cached value is absent, empty, or expired,
`get_sahpra_nonce` takes the refresh path. -/
theorem get_nonce_on_invalid (env : SahpraUtils.NonceEnv)
    (c : SahpraUtils.NonceState) (now : Int)
    (hexp : ∀ v, c.value = some v →
      v = "" ∨ SahpraUtils.CACHE_LIFETIME ≤ now - c.timestamp) :
    SahpraUtils.get_sahpra_nonce env c now =
      SahpraUtils.fetch_nonce env c now := by
  unfold SahpraUtils.get_sahpra_nonce
  rw [if_neg]
  rintro ⟨ht, hlt⟩
  cases hv : c.value with
  | none => rw [hv] at ht; exact absurd ht (by decide)
  | some v =>
    rw [hv] at ht
    rcases hexp v hv with rfl | hge
    · exact absurd ht (by decide)
    · exact absurd hge (not_le.mpr hlt)

/-- Helper: a failing page fetch propagates through the refresh path. -/
theorem fetch_nonce_page_error (env : SahpraUtils.NonceEnv)
    (c : SahpraUtils.NonceState) (now : Int) (e : SrcError)
    (hp : env.page = .error e) :
    SahpraUtils.fetch_nonce env c now = ⟨.error e, c, true⟩ := by
  unfold SahpraUtils.fetch_nonce
  rw [hp]

/-- Helper: an unmatched nonce pattern raises `nonceNotFound` through the
refresh path. -/
theorem fetch_nonce_no_match (env : SahpraUtils.NonceEnv)
    (c : SahpraUtils.NonceState) (now : Int) (text : String)
    (hp : env.page = .ok text) (hn : env.findNonce text = none) :
    SahpraUtils.fetch_nonce env c now = ⟨.error .nonceNotFound, c, true⟩ := by
  simp only [SahpraUtils.fetch_nonce, hp, hn]

/-- Helper: a matched nonce pattern stores and returns the extracted nonce. -/
theorem fetch_nonce_success (env : SahpraUtils.NonceEnv)
    (c : SahpraUtils.NonceState) (now : Int) (text n : String)
    (hp : env.page = .ok text) (hn : env.findNonce text = some n) :
    SahpraUtils.fetch_nonce env c now = ⟨.ok n, ⟨some n, now⟩, true⟩ := by
  simp only [SahpraUtils.fetch_nonce, hp, hn]

/-- C5: when the cached nonce is absent, empty, or expired and the refresh
fails (page fetch error, or nonce pattern unmatched), `get_sahpra_nonce`
propagates that error to the caller and never returns any value, in
particular not the previously cached one. -/
theorem twvc_no_fallback (env : SahpraUtils.NonceEnv)
    (c : SahpraUtils.NonceState) (now : Int) (e : SrcError)
    (hexp : ∀ v, c.value = some v →
      v = "" ∨ SahpraUtils.CACHE_LIFETIME ≤ now - c.timestamp)
    (hfail : env.page = .error e ∨
      (e = .nonceNotFound ∧
        ∃ text, env.page = .ok text ∧ env.findNonce text = none)) :
    (SahpraUtils.get_sahpra_nonce env c now).result = .error e ∧
    ∀ w, (SahpraUtils.get_sahpra_nonce env c now).result ≠ .ok w := by
  have hmain : (SahpraUtils.get_sahpra_nonce env c now).result = .error e := by
    rw [get_nonce_on_invalid env c now hexp]
    rcases hfail with hp | ⟨he, text, hp, hn⟩
    · rw [fetch_nonce_page_error env c now e hp]
    · rw [fetch_nonce_no_match env c now text hp hn, he]
  exact ⟨hmain, fun w hw => by rw [hmain] at hw; exact Except.noConfusion hw⟩

/-- C5 witness: an expired nonce (issued at t = 0, call at t = 43200) with a
failing page fetch propagates the fetch error rather than serving the stale
nonce. -/
theorem twvc_no_fallback_witness :
    (SahpraUtils.get_sahpra_nonce ⟨.error .fetchError, fun _ => none⟩
      ⟨some "aaaa", 0⟩ 43200).result = .error .fetchError ∧
    ∀ w, (SahpraUtils.get_sahpra_nonce ⟨.error .fetchError, fun _ => none⟩
      ⟨some "aaaa", 0⟩ 43200).result ≠ .ok w :=
  twvc_no_fallback ⟨.error .fetchError, fun _ => none⟩ ⟨some "aaaa", 0⟩ 43200
    .fetchError (fun v hv => Or.inr (by decide)) (Or.inl rfl)

/-- C9: the in-memory nonce slot is mutated only by a successful extraction:
whenever a call changes the slot, the page fetch succeeded, the nonce
pattern matched some `n`, and the call returned `n` after storing it with
the call's timestamp; contrapositively, every failed refresh attempt leaves
the slot (value and timestamp) exactly as it was before the call. -/
theorem twvc_slot_preserved (env : SahpraUtils.NonceEnv)
    (c : SahpraUtils.NonceState) (now : Int)
    (hch : (SahpraUtils.get_sahpra_nonce env c now).cache ≠ c) :
    ∃ text n, env.page = .ok text ∧ env.findNonce text = some n ∧
      SahpraUtils.get_sahpra_nonce env c now =
        ⟨.ok n, ⟨some n, now⟩, true⟩ := by
  by_cases hvalid : SahpraUtils.truthy c.value = true ∧
      now - c.timestamp < SahpraUtils.CACHE_LIFETIME
  · exfalso
    apply hch
    unfold SahpraUtils.get_sahpra_nonce
    rw [if_pos hvalid]
  · have hexp : ∀ v, c.value = some v →
        v = "" ∨ SahpraUtils.CACHE_LIFETIME ≤ now - c.timestamp := by
      intro v hv
      by_contra hcon
      push_neg at hcon
      exact hvalid ⟨by rw [hv]; exact truthy_of_some_ne v hcon.1, hcon.2⟩
    rw [get_nonce_on_invalid env c now hexp] at hch ⊢
    cases hp : env.page with
    | error e =>
      rw [fetch_nonce_page_error env c now e hp] at hch
      exact absurd rfl hch
    | ok text =>
      cases hn : env.findNonce text with
      | none =>
        rw [fetch_nonce_no_match env c now text hp hn] at hch
        exact absurd rfl hch
      | some n =>
        exact ⟨text, n, rfl, hn, fetch_nonce_success env c now text n hp hn⟩

/-- C9 witness: the slot-preservation theorem applied at an empty slot and a
succeeding environment, where the slot does change and therefore carries the
freshly extracted nonce and timestamp. -/
theorem twvc_slot_preserved_witness :
    ∃ text n, envNonceOk.page = .ok text ∧
      envNonceOk.findNonce text = some n ∧
      SahpraUtils.get_sahpra_nonce envNonceOk ⟨none, 0⟩ 5 =
        ⟨.ok n, ⟨some n, 5⟩, true⟩ :=
  twvc_slot_preserved envNonceOk ⟨none, 0⟩ 5 (by decide)

/-- C6: normalization drops exactly the rows whose required `Description`
cell (raw column 3, projected to schema position 2) is missing and keeps
every row with a present `Description`: in general `normalize_mhpl` equals
filtering the raw rows on a present `Description` cell and then projecting
(so filtering happens at normalization time, before the snapshot is stored
or queried); in particular a 3-row raw dataset whose middle row lacks the
required cell normalizes to exactly the two projections of the other rows. -/
theorem mhpl_row_filtering (raw : List NdohUtils.RawRow)
    (r0 r1 r2 : NdohUtils.RawRow)
    (h0 : (r0.getD 3 none).isSome = true)
    (h1 : r1.getD 3 none = none)
    (h2 : (r2.getD 3 none).isSome = true) :
    NdohUtils.normalize_mhpl raw =
      (raw.filter (fun r => (r.getD 3 none).isSome)).map NdohUtils.project ∧
    NdohUtils.normalize_mhpl [r0, r1, r2] =
      [NdohUtils.project r0, NdohUtils.project r2] := by
  have hgen : ∀ l : List NdohUtils.RawRow, NdohUtils.normalize_mhpl l =
      (l.filter (fun r => (r.getD 3 none).isSome)).map NdohUtils.project := by
    intro l
    unfold NdohUtils.normalize_mhpl
    exact List.filter_map NdohUtils.project l
  refine ⟨hgen raw, ?_⟩
  rw [hgen [r0, r1, r2]]
  simp only [List.getD_eq_getElem?_getD] at h0 h1 h2
  simp [List.filter_cons, h0, h1, h2]

/-- C6 witness: the row-filtering theorem at a concrete 3-row raw dataset
whose middle row has no `Description` cell. -/
theorem mhpl_row_filtering_witness :
    NdohUtils.normalize_mhpl [] =
      (List.filter (fun r => (r.getD 3 none).isSome) []).map NdohUtils.project ∧
    NdohUtils.normalize_mhpl
        [[none, none, none, some "A"], [], [none, none, none, some "B"]] =
      [NdohUtils.project [none, none, none, some "A"],
       NdohUtils.project [none, none, none, some "B"]] :=
  mhpl_row_filtering [] [none, none, none, some "A"] []
    [none, none, none, some "B"] rfl rfl rfl

/-- C7: with a fetched listing page, `discover_latest_ndoh_prod_list_link`
raises the distinct `linkNotFound` error exactly when the version-link
pattern finds no match, and returns a token only on a match, the token
being the URL-join of the matched relative path. -/
theorem discovery_no_match_error (env : NdohUtils.VscEnv) (text : String)
    (hp : env.listingPage = .ok text) :
    (env.findLink text = none →
      NdohUtils.discover_latest_ndoh_prod_list_link env =
        .error .linkNotFound) ∧
    (∀ t, NdohUtils.discover_latest_ndoh_prod_list_link env = .ok t →
      ∃ rel, env.findLink text = some rel ∧ t = env.joinUrl rel) := by
  constructor
  · intro hn
    simp only [NdohUtils.discover_latest_ndoh_prod_list_link, hp, hn]
  · intro t ht
    simp only [NdohUtils.discover_latest_ndoh_prod_list_link, hp] at ht
    cases hn : env.findLink text with
    | none => rw [hn] at ht; exact Except.noConfusion ht
    | some rel =>
      rw [hn] at ht
      exact ⟨rel, rfl, (Except.ok.inj ht).symm⟩

/-- C7 witness: the discovery theorem at a concrete environment whose
pattern never matches, yielding the distinct `linkNotFound` error. -/
theorem discovery_no_match_error_witness :
    (envNoLink.findLink "page" = none →
      NdohUtils.discover_latest_ndoh_prod_list_link envNoLink =
        .error .linkNotFound) ∧
    (∀ t, NdohUtils.discover_latest_ndoh_prod_list_link envNoLink = .ok t →
      ∃ rel, envNoLink.findLink "page" = some rel ∧
        t = envNoLink.joinUrl rel) :=
  discovery_no_match_error envNoLink "page" rfl

/-- Helper: under a token mismatch or a missing snapshot file,
`get_latest_ndoh_prod_list_df` takes the refresh path. -/
theorem get_latest_refresh_eq (env : NdohUtils.VscEnv)
    (s : NdohUtils.VscState) (t : String)
    (hd : NdohUtils.discover_latest_ndoh_prod_list_link env = .ok t)
    (hmiss : s.cacheFile = none ∨ NdohUtils.readLastLink s ≠ t) :
    NdohUtils.get_latest_ndoh_prod_list_df env s =
      NdohUtils.refresh env s t := by
  unfold NdohUtils.get_latest_ndoh_prod_list_df
  rw [hd]
  rcases hmiss with hc | hne
  · rw [hc]
  · cases hcf : s.cacheFile with
    | none => rfl
    | some rows => simp [hne]

/-- C8 counterexample: in a concrete successful refresh, the snapshot write
does precede the token write, yet a run interrupted between the two writes
leaves a state whose snapshot is the freshly written one — the pair
(old token + old snapshot) claimed to survive such an interruption does
not: the snapshot file no longer holds the old snapshot. -/
theorem vsc_write_order_counterexample :
    (NdohUtils.get_latest_ndoh_prod_list_df envRefresh sOld).writes =
      [.writeSnapshot [NdohUtils.project fullRow], .writeToken "L2"] ∧
    NdohUtils.applyWrites sOld
        ((NdohUtils.get_latest_ndoh_prod_list_df envRefresh
          sOld).writes.take 1) ≠ sOld ∧
    (NdohUtils.applyWrites sOld
        ((NdohUtils.get_latest_ndoh_prod_list_df envRefresh
          sOld).writes.take 1)).cacheFile ≠ sOld.cacheFile := by
  decide

/-- C8 (amended): on a successful refresh after a token mismatch or missing
snapshot, the new snapshot and the new token are both persisted, the
snapshot write occurring strictly before the token write; a run interrupted
between the two writes keeps the old persisted token unchanged (paired with
the new snapshot), so the unchanged token still marks the state as stale
rather than presenting a new token over old data, and applying both writes
in order yields exactly the final persisted state. -/
theorem vsc_write_order (env : NdohUtils.VscEnv) (s : NdohUtils.VscState)
    (t b : String) (raw : List NdohUtils.RawRow)
    (hd : NdohUtils.discover_latest_ndoh_prod_list_link env = .ok t)
    (hmiss : s.cacheFile = none ∨ NdohUtils.readLastLink s ≠ t)
    (hf : env.fetchData t = .ok b)
    (hp : env.parseExcel b = .ok raw) :
    NdohUtils.get_latest_ndoh_prod_list_df env s =
      ⟨.ok (NdohUtils.normalize_mhpl raw),
        ⟨some t, some (NdohUtils.normalize_mhpl raw)⟩, 1,
        [.writeSnapshot (NdohUtils.normalize_mhpl raw), .writeToken t]⟩ ∧
    NdohUtils.applyWrites s
        ((NdohUtils.get_latest_ndoh_prod_list_df env s).writes.take 1) =
      { s with cacheFile := some (NdohUtils.normalize_mhpl raw) } ∧
    NdohUtils.applyWrites s
        (NdohUtils.get_latest_ndoh_prod_list_df env s).writes =
      (NdohUtils.get_latest_ndoh_prod_list_df env s).state := by
  have hr : NdohUtils.refresh env s t =
      ⟨.ok (NdohUtils.normalize_mhpl raw),
        ⟨some t, some (NdohUtils.normalize_mhpl raw)⟩, 1,
        [.writeSnapshot (NdohUtils.normalize_mhpl raw), .writeToken t]⟩ := by
    simp only [NdohUtils.refresh, hf, hp]
  have heq := get_latest_refresh_eq env s t hd hmiss
  rw [heq, hr]
  exact ⟨rfl, rfl, rfl⟩

/-- C8 witness: the amended write-order theorem at the concrete refresh
environment and outdated state of the counterexample. -/
theorem vsc_write_order_witness :
    NdohUtils.get_latest_ndoh_prod_list_df envRefresh sOld =
      ⟨.ok (NdohUtils.normalize_mhpl [fullRow]),
        ⟨some "L2", some (NdohUtils.normalize_mhpl [fullRow])⟩, 1,
        [.writeSnapshot (NdohUtils.normalize_mhpl [fullRow]),
          .writeToken "L2"]⟩ ∧
    NdohUtils.applyWrites sOld
        ((NdohUtils.get_latest_ndoh_prod_list_df envRefresh
          sOld).writes.take 1) =
      { sOld with cacheFile := some (NdohUtils.normalize_mhpl [fullRow]) } ∧
    NdohUtils.applyWrites sOld
        (NdohUtils.get_latest_ndoh_prod_list_df envRefresh sOld).writes =
      (NdohUtils.get_latest_ndoh_prod_list_df envRefresh sOld).state :=
  vsc_write_order envRefresh sOld "L2" "bytes" [fullRow] rfl
    (Or.inr (by decide)) rfl rfl

/-- C10: for a category outside the ten keys of `TABLE_MAP`,
`get_licensed_companies` deterministically returns the fixed error message
naming that category, performs no network request, and neither reads nor
mutates the nonce cache slot; `TABLE_MAP` has exactly ten entries. -/
theorem unknown_category_error (env : Server.CompaniesEnv)
    (c : SahpraUtils.NonceState) (now : Int) (category : String)
    (h : category ∉ Server.TABLE_MAP.map Prod.fst) :
    Server.get_licensed_companies env c now category =
      ⟨"Error: The category `" ++ category ++ "` was not found.",
        c, 0, false⟩ ∧
    Server.TABLE_MAP.length = 10 := by
  have hfind : Server.tableMapGet category = none := by
    unfold Server.tableMapGet
    rw [List.find?_eq_none.mpr]
    · rfl
    · intro p hp hbeq
      exact h (List.mem_map.mpr ⟨p, hp, eq_of_beq hbeq⟩)
  refine ⟨?_, rfl⟩
  unfold Server.get_licensed_companies
  rw [hfind]
  rfl

/-- C10 witness: the unknown-category theorem at the concrete category
`Foo`, which is none of the ten known keys. -/
theorem unknown_category_error_witness :
    Server.get_licensed_companies envCompanies ⟨none, 0⟩ 0 "Foo" =
      ⟨"Error: The category `" ++ "Foo" ++ "` was not found.",
        ⟨none, 0⟩, 0, false⟩ ∧
    Server.TABLE_MAP.length = 10 :=
  unknown_category_error envCompanies ⟨none, 0⟩ 0 "Foo" (by decide)
